import Mathlib

/-
  Verification of src/get_papers.py (PubMedResearchPapers).
  The script is embedded shallowly: each Python function becomes a Lean
  function over explicit data; the network is an oracle assigning an
  outcome to each attempt; the retry loops, the orchestration of
  __main__ and the affiliation classifier are translated directly.
-/

namespace GetPapers

/-- Lowercasing of a Python string, modelled character by character
(`str.lower` restricted per character, which covers the ASCII keywords). -/
def lowerStr (s : String) : List Char := s.data.map Char.toLower

/-- Python substring test anchored at the front: `hay` starts with `needle`. -/
def leadMatch : List Char → List Char → Bool
  | [], _ => true
  | _ :: _, [] => false
  | a :: as, b :: bs => a == b && leadMatch as bs

/-- Python substring test `needle in hay`. -/
def hasSubstr : List Char → List Char → Bool
  | needle, [] => leadMatch needle []
  | needle, c :: t => leadMatch needle (c :: t) || hasSubstr needle t

/-- The fixed keyword list of `is_non_academic_affiliation` (src/get_papers.py line 107). -/
def keywords : List String :=
  ["pharma", "biotech", "laboratories", "inc.", "corporation", "company", "llc", "ltd"]

/-- `is_non_academic_affiliation` (src/get_papers.py lines 105-108): true iff some
affiliation string, lowercased, has some keyword as a substring. -/
def is_non_academic_affiliation (affiliations : List String) : Bool :=
  affiliations.any (fun aff => keywords.any (fun kw => hasSubstr kw.data (lowerStr aff)))

/-- C1: `is_non_academic_affiliation` returns true iff at least one affiliation,
lowercased, contains a keyword of the fixed set as a substring; it is false on the
empty list, true on ["XYZ Company Holdings"] and true on ["AppendLtd"]. -/
theorem C1_classify_iff_keyword_substring :
    (∀ affs : List String, is_non_academic_affiliation affs = true ↔
      ∃ aff ∈ affs, ∃ kw ∈ keywords, hasSubstr kw.data (lowerStr aff) = true)
    ∧ is_non_academic_affiliation [] = false
    ∧ is_non_academic_affiliation ["XYZ Company Holdings"] = true
    ∧ is_non_academic_affiliation ["AppendLtd"] = true := by
  refine ⟨?_, by decide, by decide, by decide⟩
  intro affs
  simp [is_non_academic_affiliation, List.any_eq_true]

/-- Witness for C1: a concrete affiliation classified through the iff. -/
theorem C1_classify_iff_keyword_substring_witness :
    is_non_academic_affiliation ["Novo Biotech Unit"] = true :=
  (C1_classify_iff_keyword_substring.1 ["Novo Biotech Unit"]).mpr
    ⟨"Novo Biotech Unit", by decide, "biotech", by decide, by decide⟩

/-- Outcome of one HTTP attempt: a successful response carrying the parsed
payload, or a `requests.exceptions.RequestException`. -/
inductive Outcome (β : Type) : Type
  | ok (v : β)
  | err
deriving DecidableEq, Repr

/-- Observable effect of one retry loop: the returned value, the number of
request attempts issued, and the list of sleeps performed between attempts. -/
structure RetryResult (α : Type) : Type where
  result : α
  attempts : Nat
  delays : List Nat
deriving DecidableEq, Repr

/-- The shared retry loop of `fetch_papers`, `get_paper_details` and
`get_author_affiliations` (src/get_papers.py lines 16-36, 47-62, 73-103):
iterate over the available attempts; on the first success return the parsed
value `f v`; on failure sleep `delay` seconds and retry, unless it was the
last attempt, in which case return the stage sentinel. -/
def retryRun (f : β → α) (sentinel : α) (delay : Nat) : List (Outcome β) → RetryResult α
  | [] => ⟨sentinel, 0, []⟩
  | Outcome.ok v :: _ => ⟨f v, 1, []⟩
  | Outcome.err :: [] => ⟨sentinel, 1, []⟩
  | Outcome.err :: o :: rest =>
      let r := retryRun f sentinel delay (o :: rest)
      ⟨r.result, r.attempts + 1, delay :: r.delays⟩

/-- Summary record for one paper in the esummary response: title and pubdate
fields, either possibly absent. -/
structure SummaryRec : Type where
  title : Option String
  pubdate : Option String
deriving DecidableEq, Repr

/-- The esummary `result` mapping, as an association list keyed by paper id. -/
abbrev SummaryMap : Type := List (String × SummaryRec)

/-- Python dict lookup `m[k]` / `k in m`, first match wins. -/
def dictGet (m : SummaryMap) (k : String) : Option SummaryRec :=
  match m with
  | [] => none
  | (k2, v) :: t => if k2 = k then some v else dictGet t k

/-- One node of the efetch XML document, in document order: an Author element
(with optional LastName and ForeName sub-elements), an Affiliation element
carrying its text, or any other element. -/
inductive DocNode : Type
  | author (lastName foreName : Option String)
  | affiliation (text : String)
  | other
deriving DecidableEq, Repr

/-- Python `str.strip` on the character list: drop whitespace from both ends. -/
def stripChars (l : List Char) : List Char :=
  ((l.dropWhile Char.isWhitespace).reverse.dropWhile Char.isWhitespace).reverse

/-- Python `str.strip`. -/
def pyStrip (s : String) : String := String.mk (stripChars s.data)

/-- The display name built at src/get_papers.py line 88: fore name, a space,
last name (absent parts contribute the empty string), then stripped. -/
def authorName (lastName foreName : Option String) : String :=
  pyStrip (foreName.getD "" ++ " " ++ lastName.getD "")

/-- `author.find_next("Affiliation")` (src/get_papers.py line 86): the text of
the nearest Affiliation element strictly after the author in document order. -/
def findNextAffiliation : List DocNode → Option String
  | [] => none
  | DocNode.affiliation t :: _ => some t
  | _ :: rest => findNextAffiliation rest

/-- The parsing loop of `get_author_affiliations` (src/get_papers.py lines
83-94): for each Author element append its display name to `authors`, and,
when a following Affiliation element exists, append its text to
`affiliations`. -/
def extractAA : List DocNode → List String × List String
  | [] => ([], [])
  | DocNode.author ln fn :: rest =>
      let p := extractAA rest
      (authorName ln fn :: p.1,
        match findNextAffiliation rest with
        | some t => t :: p.2
        | none => p.2)
  | _ :: rest => extractAA rest

/-- `fetch_papers` (src/get_papers.py lines 6-36): the network oracle gives,
per attempt, the id list parsed from the esearch response or a failure; the
sentinel is the empty list. -/
def fetch_papers (net : Nat → Outcome (List String)) (max_retries delay : Nat) :
    RetryResult (List String) :=
  retryRun id [] delay ((List.range max_retries).map net)

/-- `get_paper_details` (src/get_papers.py lines 38-62): the oracle gives, per
attempt, the `result` mapping from the esummary response or a failure; the
sentinel is the empty mapping. -/
def get_paper_details (net : Nat → Outcome SummaryMap) (max_retries delay : Nat) :
    RetryResult SummaryMap :=
  retryRun id [] delay ((List.range max_retries).map net)

/-- `get_author_affiliations` (src/get_papers.py lines 64-103): the oracle
gives, per attempt, the parsed XML document or a failure; on success the
document is reduced by `extractAA`; the sentinel is a pair of empty lists. -/
def get_author_affiliations (net : Nat → Outcome (List DocNode)) (max_retries delay : Nat) :
    RetryResult (List String × List String) :=
  retryRun extractAA ([], []) delay ((List.range max_retries).map net)

/-- One exported row (the dict built at src/get_papers.py lines 134-140). -/
structure FilteredPaper : Type where
  paperId : String
  title : String
  pubDate : String
  authors : String
  affiliations : String
deriving DecidableEq, Repr

/-- The CSV header: the columns of the exported DataFrame, in insertion order. -/
def csvHeader : List String :=
  ["Paper ID", "Title", "Publication Date", "Authors", "Affiliations"]

/-- One CSV data row for a FilteredPaper. -/
def toRow (p : FilteredPaper) : List String :=
  [p.paperId, p.title, p.pubDate, p.authors, p.affiliations]

/-- The accumulation loop of `__main__` (src/get_papers.py lines 125-140):
iterate the search ids in order; for an id present in the summary mapping,
fetch its authors and affiliations, and when the classifier accepts the
affiliations append a row whose list fields are joined with "; ". -/
def buildRows (paper_ids : List String) (paper_data : SummaryMap)
    (detail : String → List String × List String) : List FilteredPaper :=
  paper_ids.filterMap (fun pid =>
    match dictGet paper_data pid with
    | none => none
    | some rec =>
        let p := detail pid
        if is_non_academic_affiliation p.2 then
          some ⟨pid, rec.title.getD "No Title Available",
                rec.pubdate.getD "No Date Available",
                String.intercalate "; " p.1, String.intercalate "; " p.2⟩
        else none)

/-- The ids for which `get_author_affiliations` is invoked by the loop: those
search ids that are keys of the summary mapping (src/get_papers.py line 127). -/
def calledIds (paper_ids : List String) (paper_data : SummaryMap) : List String :=
  paper_ids.filter (fun pid => (dictGet paper_data pid).isSome)

/-- How a run of `__main__` ends. -/
inductive MainOutcome : Type
  | exitNoIds
  | exitNoSummaries
  | noQualifying
  | wrote (filename encoding : String) (table : List (List String))
deriving DecidableEq, Repr

/-- Observable effects of one run of `__main__`: how it ended, whether the
summary request stage was ever entered, and the ids for which the detail
stage was invoked. -/
structure MainResult : Type where
  outcome : MainOutcome
  summaryFetched : Bool
  detailCalled : List String
deriving DecidableEq, Repr

/-- `__main__` (src/get_papers.py lines 110-147): search, exit early when no
ids; fetch summaries, exit early when the mapping is empty; accumulate rows;
write filtered_papers.csv in UTF-8 when rows exist, otherwise report none. -/
def mainRun (snet : Nat → Outcome (List String)) (dnet : Nat → Outcome SummaryMap)
    (anet : String → Nat → Outcome (List DocNode)) : MainResult :=
  let paper_ids := (fetch_papers snet 3 5).result
  if paper_ids.isEmpty then ⟨MainOutcome.exitNoIds, false, []⟩
  else
    let paper_data := (get_paper_details dnet 3 5).result
    if paper_data.isEmpty then ⟨MainOutcome.exitNoSummaries, true, []⟩
    else
      let detail := fun pid => (get_author_affiliations (anet pid) 3 5).result
      let rows := buildRows paper_ids paper_data detail
      if rows.isEmpty then ⟨MainOutcome.noQualifying, true, calledIds paper_ids paper_data⟩
      else ⟨MainOutcome.wrote "filtered_papers.csv" "utf-8" (csvHeader :: rows.map toRow),
            true, calledIds paper_ids paper_data⟩

theorem retryRun_attempts_le (f : β → α) (s : α) (d : Nat) :
    ∀ outcomes, (retryRun f s d outcomes).attempts ≤ outcomes.length := by
  intro outcomes
  induction outcomes with
  | nil => simp [retryRun]
  | cons o rest ih =>
      cases o with
      | ok v => simp [retryRun]
      | err =>
          cases rest with
          | nil => simp [retryRun]
          | cons o2 r2 =>
              simp only [retryRun, List.length_cons]
              exact Nat.succ_le_succ ih

theorem retryRun_delays_fixed (f : β → α) (s : α) (d : Nat) :
    ∀ outcomes, ∀ x ∈ (retryRun f s d outcomes).delays, x = d := by
  intro outcomes
  induction outcomes with
  | nil => simp [retryRun]
  | cons o rest ih =>
      cases o with
      | ok v => simp [retryRun]
      | err =>
          cases rest with
          | nil => simp [retryRun]
          | cons o2 r2 =>
              intro x hx
              simp only [retryRun] at hx
              rcases List.mem_cons.mp hx with h | h
              · exact h
              · exact ih x h

theorem retryRun_result_or (f : β → α) (s : α) (d : Nat) :
    ∀ outcomes, (retryRun f s d outcomes).result = s ∨
      ∃ v, Outcome.ok v ∈ outcomes ∧ (retryRun f s d outcomes).result = f v := by
  intro outcomes
  induction outcomes with
  | nil => left; rfl
  | cons o rest ih =>
      cases o with
      | ok v => right; exact ⟨v, List.mem_cons_self _ _, rfl⟩
      | err =>
          cases rest with
          | nil => left; rfl
          | cons o2 r2 =>
              rcases ih with h | ⟨v, hv, hres⟩
              · left; simpa [retryRun] using h
              · right; exact ⟨v, List.mem_cons_of_mem _ hv, by simpa [retryRun] using hres⟩

theorem range_three_map (net : Nat → Outcome β) :
    (List.range 3).map net = [net 0, net 1, net 2] := rfl

theorem retryRun_three_err (f : β → α) (s : α) (d : Nat) :
    retryRun f s d [Outcome.err, Outcome.err, Outcome.err] = ⟨s, 3, [d, d]⟩ := rfl

/-- C3: each stage called with max_retries = 3 issues at most 3 attempts, every
inter-attempt delay equals the configured 5 seconds, and when all attempts
fail the stage returns its empty sentinel after exactly 3 attempts: the empty
list for search, the empty mapping for summaries, a pair of empty lists for
authors and affiliations. -/
theorem C3_retry_bound_and_sentinels :
    ∀ (snet : Nat → Outcome (List String)) (dnet : Nat → Outcome SummaryMap)
      (anet : Nat → Outcome (List DocNode)),
      (fetch_papers snet 3 5).attempts ≤ 3
      ∧ (get_paper_details dnet 3 5).attempts ≤ 3
      ∧ (get_author_affiliations anet 3 5).attempts ≤ 3
      ∧ (∀ x ∈ (fetch_papers snet 3 5).delays, x = 5)
      ∧ (∀ x ∈ (get_paper_details dnet 3 5).delays, x = 5)
      ∧ (∀ x ∈ (get_author_affiliations anet 3 5).delays, x = 5)
      ∧ ((∀ i, snet i = Outcome.err) → fetch_papers snet 3 5 = ⟨[], 3, [5, 5]⟩)
      ∧ ((∀ i, dnet i = Outcome.err) → get_paper_details dnet 3 5 = ⟨[], 3, [5, 5]⟩)
      ∧ ((∀ i, anet i = Outcome.err) →
          get_author_affiliations anet 3 5 = ⟨([], []), 3, [5, 5]⟩) := by
  intro snet dnet anet
  have hlen : ∀ (β : Type) (net : Nat → Outcome β), ((List.range 3).map net).length = 3 := by
    intro β net; simp
  refine ⟨?_, ?_, ?_, ?_, ?_, ?_, ?_, ?_, ?_⟩
  · simpa [fetch_papers, hlen] using retryRun_attempts_le id [] 5 ((List.range 3).map snet)
  · simpa [get_paper_details, hlen] using retryRun_attempts_le id [] 5 ((List.range 3).map dnet)
  · simpa [get_author_affiliations, hlen] using
      retryRun_attempts_le extractAA ([], []) 5 ((List.range 3).map anet)
  · exact retryRun_delays_fixed id [] 5 ((List.range 3).map snet)
  · exact retryRun_delays_fixed id [] 5 ((List.range 3).map dnet)
  · exact retryRun_delays_fixed extractAA ([], []) 5 ((List.range 3).map anet)
  · intro h
    have : (List.range 3).map snet = [Outcome.err, Outcome.err, Outcome.err] := by
      rw [range_three_map, h 0, h 1, h 2]
    rw [fetch_papers, this, retryRun_three_err]
  · intro h
    have : (List.range 3).map dnet = [Outcome.err, Outcome.err, Outcome.err] := by
      rw [range_three_map, h 0, h 1, h 2]
    rw [get_paper_details, this, retryRun_three_err]
  · intro h
    have : (List.range 3).map anet = [Outcome.err, Outcome.err, Outcome.err] := by
      rw [range_three_map, h 0, h 1, h 2]
    rw [get_author_affiliations, this, retryRun_three_err]

/-- Witness for C3 at the oracle that fails every attempt. -/
theorem C3_retry_bound_and_sentinels_witness :
    fetch_papers (fun _ => Outcome.err) 3 5 = ⟨[], 3, [5, 5]⟩
    ∧ get_paper_details (fun _ => Outcome.err) 3 5 = ⟨[], 3, [5, 5]⟩
    ∧ get_author_affiliations (fun _ => Outcome.err) 3 5 = ⟨([], []), 3, [5, 5]⟩ :=
  have h := C3_retry_bound_and_sentinels (fun _ => Outcome.err) (fun _ => Outcome.err)
    (fun _ => Outcome.err)
  ⟨h.2.2.2.2.2.2.1 (fun _ => rfl), h.2.2.2.2.2.2.2.1 (fun _ => rfl),
    h.2.2.2.2.2.2.2.2 (fun _ => rfl)⟩

/-- C4: no run of a stage escapes with an exception: each stage either returns
the value parsed from some successful attempt or degrades to its empty-result
sentinel; and a summary record with absent title and pubdate is defaulted to
the placeholder strings in the exported row, never fatal. -/
theorem C4_soft_fail_and_defaults :
    (∀ snet : Nat → Outcome (List String),
      (fetch_papers snet 3 5).result = [] ∨
        ∃ v, Outcome.ok v ∈ (List.range 3).map snet ∧ (fetch_papers snet 3 5).result = v)
    ∧ (∀ dnet : Nat → Outcome SummaryMap,
      (get_paper_details dnet 3 5).result = [] ∨
        ∃ v, Outcome.ok v ∈ (List.range 3).map dnet ∧ (get_paper_details dnet 3 5).result = v)
    ∧ (∀ anet : Nat → Outcome (List DocNode),
      (get_author_affiliations anet 3 5).result = ([], []) ∨
        ∃ doc, Outcome.ok doc ∈ (List.range 3).map anet ∧
          (get_author_affiliations anet 3 5).result = extractAA doc)
    ∧ (∀ (pid : String) (detail : String → List String × List String),
        is_non_academic_affiliation (detail pid).2 = true →
        buildRows [pid] [(pid, ⟨none, none⟩)] detail =
          [⟨pid, "No Title Available", "No Date Available",
            String.intercalate "; " (detail pid).1,
            String.intercalate "; " (detail pid).2⟩]) := by
  refine ⟨?_, ?_, ?_, ?_⟩
  · intro snet
    exact retryRun_result_or id [] 5 ((List.range 3).map snet)
  · intro dnet
    exact retryRun_result_or id [] 5 ((List.range 3).map dnet)
  · intro anet
    exact retryRun_result_or extractAA ([], []) 5 ((List.range 3).map anet)
  · intro pid detail h
    simp [buildRows, dictGet, h]

/-- Witness for C4 at a concrete paper whose summary record has no title and
no pubdate. -/
theorem C4_soft_fail_and_defaults_witness :
    is_non_academic_affiliation ((fun _ : String => (["A"], ["Pharma Inc"])) "7").2 = true
    ∧ buildRows ["7"] [("7", SummaryRec.mk none none)] (fun _ => (["A"], ["Pharma Inc"])) =
        [FilteredPaper.mk "7" "No Title Available" "No Date Available"
          (String.intercalate "; " ["A"]) (String.intercalate "; " ["Pharma Inc"])] :=
  ⟨by decide,
    C4_soft_fail_and_defaults.2.2.2 "7" (fun _ => (["A"], ["Pharma Inc"])) (by decide)⟩

theorem buildRows_map_sublist (data : SummaryMap)
    (detail : String → List String × List String) :
    ∀ ids, List.Sublist ((buildRows ids data detail).map FilteredPaper.paperId) ids := by
  intro ids
  induction ids with
  | nil => simp [buildRows]
  | cons pid rest ih =>
      simp only [buildRows, List.filterMap_cons]
      cases hdg : dictGet data pid with
      | none => exact List.Sublist.cons _ ih
      | some rec =>
          by_cases hc : is_non_academic_affiliation (detail pid).2 = true
          · simpa [hc] using List.Sublist.cons₂ pid ih
          · simpa [hc] using List.Sublist.cons pid ih

/-- C2: every exported row's id came from the search list and is a key of the
summary mapping; rows follow search order (the ids of the rows form a sublist
of the search ids); the classifier was true of that paper's own affiliation
list; and the Authors and Affiliations fields are the lists joined by "; ". -/
theorem C2_row_invariants :
    ∀ (ids : List String) (data : SummaryMap)
      (detail : String → List String × List String),
      List.Sublist ((buildRows ids data detail).map FilteredPaper.paperId) ids
      ∧ ∀ row ∈ buildRows ids data detail,
          row.paperId ∈ ids
          ∧ (dictGet data row.paperId).isSome = true
          ∧ is_non_academic_affiliation (detail row.paperId).2 = true
          ∧ row.authors = String.intercalate "; " (detail row.paperId).1
          ∧ row.affiliations = String.intercalate "; " (detail row.paperId).2 := by
  intro ids data detail
  refine ⟨buildRows_map_sublist data detail ids, ?_⟩
  intro row hrow
  rcases List.mem_filterMap.mp hrow with ⟨pid, hpid, hsome⟩
  cases hdg : dictGet data pid with
  | none => rw [hdg] at hsome; exact absurd hsome (by simp)
  | some rec =>
      rw [hdg] at hsome
      simp only at hsome
      by_cases hc : is_non_academic_affiliation (detail pid).2 = true
      · rw [if_pos hc] at hsome
        have hrow2 := Option.some.inj hsome
        subst hrow2
        exact ⟨hpid, by simp [hdg], hc, rfl, rfl⟩
      · rw [if_neg hc] at hsome
        exact absurd hsome (by simp)

/-- Witness for C2 at a concrete run with one qualifying paper. -/
theorem C2_row_invariants_witness :
    FilteredPaper.mk "1" "T" "2020" "John Smith" "Pfizer Pharma, USA" ∈
      buildRows ["1"] [("1", SummaryRec.mk (some "T") (some "2020"))]
        (fun _ => (["John Smith"], ["Pfizer Pharma, USA"])) ∧
    ("1" : String) ∈ ["1"] :=
  ⟨by decide,
    ((C2_row_invariants ["1"] [("1", SummaryRec.mk (some "T") (some "2020"))]
        (fun _ => (["John Smith"], ["Pfizer Pharma, USA"]))).2
      (FilteredPaper.mk "1" "T" "2020" "John Smith" "Pfizer Pharma, USA") (by decide)).1⟩

/-- Witness oracle: a search stage that succeeds at once with one id. -/
def wSearchNet : Nat → Outcome (List String) := fun _ => Outcome.ok ["1"]

/-- Witness oracle: a summary stage that succeeds with one record. -/
def wSumNet : Nat → Outcome SummaryMap :=
  fun _ => Outcome.ok [("1", SummaryRec.mk (some "T") (some "2020"))]

/-- Witness oracle: a detail stage yielding one author followed by one
affiliation element. -/
def wDetailNet : String → Nat → Outcome (List DocNode) :=
  fun _ _ => Outcome.ok
    [DocNode.author (some "Smith") (some "John"), DocNode.affiliation "Pharma Co"]

/-- C5: once both early-exit guards pass, the run writes filtered_papers.csv
in UTF-8 with the header row followed by exactly one row per FilteredPaper
when the row set is nonempty, and performs no write (reporting no qualifying
papers) when the row set is empty. -/
theorem C5_export_iff_rows :
    ∀ (snet : Nat → Outcome (List String)) (dnet : Nat → Outcome SummaryMap)
      (anet : String → Nat → Outcome (List DocNode)),
      (fetch_papers snet 3 5).result ≠ [] →
      (get_paper_details dnet 3 5).result ≠ [] →
      (buildRows (fetch_papers snet 3 5).result (get_paper_details dnet 3 5).result
          (fun pid => (get_author_affiliations (anet pid) 3 5).result) ≠ [] →
        (mainRun snet dnet anet).outcome =
          MainOutcome.wrote "filtered_papers.csv" "utf-8"
            (csvHeader ::
              (buildRows (fetch_papers snet 3 5).result (get_paper_details dnet 3 5).result
                (fun pid => (get_author_affiliations (anet pid) 3 5).result)).map toRow))
      ∧ (buildRows (fetch_papers snet 3 5).result (get_paper_details dnet 3 5).result
          (fun pid => (get_author_affiliations (anet pid) 3 5).result) = [] →
        (mainRun snet dnet anet).outcome = MainOutcome.noQualifying) := by
  intro snet dnet anet h1 h2
  constructor
  · intro hrows
    simp [mainRun, List.isEmpty_iff, h1, h2, hrows]
  · intro hrows
    simp [mainRun, List.isEmpty_iff, h1, h2, hrows]

/-- Witness for C5 at a concrete run with one qualifying paper. -/
theorem C5_export_iff_rows_witness :
    (mainRun wSearchNet wSumNet wDetailNet).outcome =
      MainOutcome.wrote "filtered_papers.csv" "utf-8"
        (csvHeader ::
          (buildRows (fetch_papers wSearchNet 3 5).result
            (get_paper_details wSumNet 3 5).result
            (fun pid => (get_author_affiliations (wDetailNet pid) 3 5).result)).map toRow) :=
  (C5_export_iff_rows wSearchNet wSumNet wDetailNet (by decide) (by decide)).1 (by decide)

/-- C6: a run whose search stage yields no ids exits before the summary stage
runs and before any detail fetch, writing nothing; a run whose summary mapping
is empty exits before any detail fetch, writing nothing. -/
theorem C6_early_termination :
    ∀ (snet : Nat → Outcome (List String)) (dnet : Nat → Outcome SummaryMap)
      (anet : String → Nat → Outcome (List DocNode)),
      ((fetch_papers snet 3 5).result = [] →
        mainRun snet dnet anet = ⟨MainOutcome.exitNoIds, false, []⟩)
      ∧ ((fetch_papers snet 3 5).result ≠ [] →
          (get_paper_details dnet 3 5).result = [] →
          mainRun snet dnet anet = ⟨MainOutcome.exitNoSummaries, true, []⟩) := by
  intro snet dnet anet
  constructor
  · intro h1
    simp [mainRun, List.isEmpty_iff, h1]
  · intro h1 h2
    simp [mainRun, List.isEmpty_iff, h1, h2]

/-- Witness for C6: an always-failing search exits with no summary fetch, and
an empty summary mapping exits with no detail calls. -/
theorem C6_early_termination_witness :
    mainRun (fun _ => Outcome.err) wSumNet wDetailNet =
      ⟨MainOutcome.exitNoIds, false, []⟩
    ∧ mainRun wSearchNet (fun _ => Outcome.err) wDetailNet =
      ⟨MainOutcome.exitNoSummaries, true, []⟩ :=
  ⟨(C6_early_termination (fun _ => Outcome.err) wSumNet wDetailNet).1 (by decide),
    (C6_early_termination wSearchNet (fun _ => Outcome.err) wDetailNet).2
      (by decide) (by decide)⟩

/-- C7: an id returned by search but absent from the summary mapping is
skipped: the detail stage is never invoked for it and no exported row carries
it; with ids ["1","2"] and a mapping covering only "1", exactly "1" is
evaluated. -/
theorem C7_missing_summary_skipped :
    (∀ (ids : List String) (data : SummaryMap)
        (detail : String → List String × List String) (pid : String),
        dictGet data pid = none →
          pid ∉ calledIds ids data
          ∧ ∀ row ∈ buildRows ids data detail, row.paperId ≠ pid)
    ∧ (∀ rec : SummaryRec, calledIds ["1", "2"] [("1", rec)] = ["1"]) := by
  constructor
  · intro ids data detail pid h
    constructor
    · intro hmem
      rcases List.mem_filter.mp hmem with ⟨-, hsome⟩
      rw [h] at hsome
      simp at hsome
    · intro row hrow heq
      rcases List.mem_filterMap.mp hrow with ⟨pid2, hpid2, hsome⟩
      cases hdg : dictGet data pid2 with
      | none => rw [hdg] at hsome; exact absurd hsome (by simp)
      | some rec =>
          rw [hdg] at hsome
          simp only at hsome
          by_cases hc : is_non_academic_affiliation (detail pid2).2 = true
          · rw [if_pos hc] at hsome
            have hrow2 := Option.some.inj hsome
            have hpe : row.paperId = pid2 := by rw [← hrow2]
            rw [heq] at hpe
            rw [← hpe] at hdg
            rw [h] at hdg
            exact Option.noConfusion hdg
          · rw [if_neg hc] at hsome
            exact absurd hsome (by simp)
  · intro rec
    simp [calledIds, dictGet]

/-- Witness for C7 at ids ["1","2"] and a mapping covering only "1". -/
theorem C7_missing_summary_skipped_witness :
    ("2" : String) ∉ calledIds ["1", "2"] [("1", SummaryRec.mk none none)]
    ∧ calledIds ["1", "2"] [("1", SummaryRec.mk none none)] = ["1"] :=
  ⟨(C7_missing_summary_skipped.1 ["1", "2"] [("1", SummaryRec.mk none none)]
      (fun _ => ([], [])) "2" (by decide)).1,
    C7_missing_summary_skipped.2 (SummaryRec.mk none none)⟩

/-- C8: the classifier is case-insensitive: two affiliation lists whose
strings agree up to letter casing (pointwise equal after lowercasing)
classify identically. -/
theorem C8_case_insensitive :
    ∀ l1 l2 : List String,
      List.Forall₂ (fun s t => lowerStr s = lowerStr t) l1 l2 →
      is_non_academic_affiliation l1 = is_non_academic_affiliation l2 := by
  intro l1 l2 h
  induction h with
  | nil => rfl
  | @cons a b t1 t2 hab htail ih =>
      simp only [is_non_academic_affiliation, List.any_cons]
      simp only [is_non_academic_affiliation] at ih
      rw [hab, ih]

/-- Witness for C8 at ["Pharma Inc"] versus ["PHARMA INC"]. -/
theorem C8_case_insensitive_witness :
    is_non_academic_affiliation ["Pharma Inc"] =
      is_non_academic_affiliation ["PHARMA INC"] :=
  C8_case_insensitive ["Pharma Inc"] ["PHARMA INC"]
    (List.Forall₂.cons (by decide) List.Forall₂.nil)

/-- C9: the parsing loop appends exactly one display name per Author element
and at most one affiliation per Author element, so the affiliation list is
never longer than the author list; when both name parts are absent the
display name is the empty string. -/
theorem C9_affiliations_le_authors :
    ∀ doc : List DocNode,
      (extractAA doc).2.length ≤ (extractAA doc).1.length
      ∧ (extractAA doc).1.length =
          doc.countP (fun n => match n with | DocNode.author _ _ => true | _ => false)
      ∧ authorName none none = "" := by
  intro doc
  refine ⟨?_, ?_, by decide⟩
  · induction doc with
    | nil => simp [extractAA]
    | cons node rest ih =>
        cases node with
        | author ln fn =>
            simp only [extractAA]
            cases findNextAffiliation rest with
            | none =>
                simp only [List.length_cons]
                exact Nat.le_succ_of_le ih
            | some t =>
                simp only [List.length_cons]
                exact Nat.succ_le_succ ih
        | affiliation t => simpa [extractAA] using ih
        | other => simpa [extractAA] using ih
  · induction doc with
    | nil => simp [extractAA]
    | cons node rest ih =>
        cases node with
        | author ln fn =>
            simp only [extractAA, List.countP_cons]
            cases findNextAffiliation rest with
            | none => simp [ih]
            | some t => simp [ih]
        | affiliation t =>
            simp only [extractAA, List.countP_cons]
            simp [ih]
        | other =>
            simp only [extractAA, List.countP_cons]
            simp [ih]

theorem classify_true_of_subset (l1 l2 : List String)
    (hsub : ∀ a ∈ l1, a ∈ l2)
    (h : is_non_academic_affiliation l1 = true) :
    is_non_academic_affiliation l2 = true := by
  rcases List.any_eq_true.mp h with ⟨a, ha, hp⟩
  exact List.any_eq_true.mpr ⟨a, hsub a ha, hp⟩

/-- C10: the classifier is invariant under permutation of the affiliation
list, monotone under extension (true on a list stays true on any list
containing all its elements), and invariant under any reshuffling or
duplication that preserves the set of elements. -/
theorem C10_perm_and_monotone :
    ∀ l1 l2 : List String,
      (List.Perm l1 l2 →
        is_non_academic_affiliation l1 = is_non_academic_affiliation l2)
      ∧ ((∀ a ∈ l1, a ∈ l2) →
        is_non_academic_affiliation l1 = true →
        is_non_academic_affiliation l2 = true)
      ∧ ((∀ a ∈ l1, a ∈ l2) → (∀ a ∈ l2, a ∈ l1) →
        is_non_academic_affiliation l1 = is_non_academic_affiliation l2) := by
  intro l1 l2
  have hmain : ∀ m1 m2 : List String, (∀ a ∈ m1, a ∈ m2) → (∀ a ∈ m2, a ∈ m1) →
      is_non_academic_affiliation m1 = is_non_academic_affiliation m2 := by
    intro m1 m2 h12 h21
    cases hb1 : is_non_academic_affiliation m1 with
    | true => exact (classify_true_of_subset m1 m2 h12 hb1).symm
    | false =>
        cases hb2 : is_non_academic_affiliation m2 with
        | true =>
            have hcontra := classify_true_of_subset m2 m1 h21 hb2
            rw [hb1] at hcontra
            exact absurd hcontra (by simp)
        | false => rfl
  refine ⟨?_, classify_true_of_subset l1 l2, hmain l1 l2⟩
  intro hperm
  exact hmain l1 l2 (fun a ha => hperm.mem_iff.mp ha) (fun a ha => hperm.mem_iff.mpr ha)

/-- Witness for C10: permuting, duplicating and extending a classified list. -/
theorem C10_perm_and_monotone_witness :
    is_non_academic_affiliation ["U Oxford", "Pharma Inc"] =
      is_non_academic_affiliation ["Pharma Inc", "U Oxford"]
    ∧ is_non_academic_affiliation ["Pharma Inc", "U Oxford", "Pharma Inc"] = true :=
  ⟨(C10_perm_and_monotone ["U Oxford", "Pharma Inc"] ["Pharma Inc", "U Oxford"]).1
      (List.Perm.swap _ _ _),
    (C10_perm_and_monotone ["Pharma Inc"]
        ["Pharma Inc", "U Oxford", "Pharma Inc"]).2.1 (by decide) (by decide)⟩

end GetPapers
